import Mathlib

/-
  Verification of the grab_common core against its design description.

  The definitions below are shallow embeddings of:
  - libgrabec/src/slaves/goldsolowhistledrive.cpp (+ its header), the
    per-actuator servo drive protocol state machine;
  - libgrabrt/src/threads.cpp, the periodic real-time worker;
  - libgrabrt/src/clocks.cpp, the absolute-time cyclic clock.

  Machine integers are modelled as Nat/Int; a modular reduction is written
  explicitly exactly where the source performs unsigned machine arithmetic
  whose wrap-around is reachable (the uint64 nanosecond sum in the clock).
-/

namespace grabec

/-- Drive states enumeration, transcribed from goldsolowhistledrive.h
(enum GoldSoloWhistleDriveStates). ST_MAX_STATES is a count, not a state. -/
inductive GoldSoloWhistleDriveStates where
  | ST_START
  | ST_NOT_READY_TO_SWITCH_ON
  | ST_SWITCH_ON_DISABLED
  | ST_READY_TO_SWITCH_ON
  | ST_SWITCHED_ON
  | ST_OPERATION_ENABLED
  | ST_QUICK_STOP_ACTIVE
  | ST_FAULT_REACTION_ACTIVE
  | ST_FAULT
  deriving DecidableEq, Repr

open GoldSoloWhistleDriveStates

/-- List of the nine drive states. -/
def allDriveStates : List GoldSoloWhistleDriveStates :=
  [ST_START, ST_NOT_READY_TO_SWITCH_ON, ST_SWITCH_ON_DISABLED,
   ST_READY_TO_SWITCH_ON, ST_SWITCHED_ON, ST_OPERATION_ENABLED,
   ST_QUICK_STOP_ACTIVE, ST_FAULT_REACTION_ACTIVE, ST_FAULT]

namespace StatusBit

/-- Status-word bit indices, from ENUM_CLASS(StatusBit, ...) in
goldsolowhistledrive.h. -/
def READY_TO_SWITCH_ON : Nat := 0

def SWITCHED_ON : Nat := 1

def OPERATION_ENABLED : Nat := 2

def FAULT : Nat := 3

def QUICK_STOP : Nat := 5

def SWITCH_ON_DISABLED : Nat := 6

end StatusBit

namespace ControlBit

/-- Control-word bit indices, from ENUM_CLASS(ControlBit, ...) in
goldsolowhistledrive.h. -/
def SWITCH_ON : Nat := 0

def ENABLE_VOLTAGE : Nat := 1

def QUICK_STOP : Nat := 2

def ENABLE_OPERATION : Nat := 3

def FAULT : Nat := 7

end ControlBit

/-- Operation modes, from enum GoldSoloWhistleOperationModes. -/
def NULL_OPERATION : Int := -1

def CYCLIC_POSITION : Int := 8

def CYCLIC_VELOCITY : Int := 9

def CYCLIC_TORQUE : Int := 10

/-- Input process-data snapshot, from struct InputPdos in
goldsolowhistledrive.h. The status word is a 16-bit value. -/
structure InputPdos where
  status_word : Nat
  display_op_mode : Int
  pos_actual_value : Int
  vel_actual_value : Int
  torque_actual_value : Int
  digital_inputs : Nat
  aux_pos_actual_value : Int
  deriving DecidableEq, Repr

/-- Output process-data snapshot, from struct OutputPdos in
goldsolowhistledrive.h. -/
structure OutputPdos where
  control_word : Nat
  op_mode : Int
  target_torque : Int
  target_position : Int
  target_velocity : Int
  deriving DecidableEq, Repr

/-- Event payload, from class GoldSoloWhistleDriveData. -/
structure GoldSoloWhistleDriveData where
  op_mode : Int
  value : Int
  deriving DecidableEq, Repr

/-- Drive object state: the two pdo snapshots, the drive_state member, the
inherited StateMachine current state, and the prev_state member. -/
structure GoldSoloWhistleDrive where
  input_pdos : InputPdos
  output_pdos : OutputPdos
  drive_state : GoldSoloWhistleDriveStates
  current_state : GoldSoloWhistleDriveStates
  prev_state : GoldSoloWhistleDriveStates
  deriving DecidableEq, Repr

/-- Bit set on a 16-bit word, Bitfield16::Set semantics (std::bitset set). -/
def setBit16 (w i : Nat) : Nat := w ||| 2 ^ i

/-- Bit clear on a 16-bit word, Bitfield16::Clear semantics (std::bitset
reset). -/
def clearBit16 (w i : Nat) : Nat := Nat.ldiff w (2 ^ i)

/-- Status-word decode, transcribed from
GoldSoloWhistleDrive::GetDriveState (goldsolowhistledrive.cpp lines 76-105).
A bitset test "== SET" is testBit = true, "== UNSET" is testBit = false. -/
def getDriveState (status_word : Nat) : GoldSoloWhistleDriveStates :=
  if status_word.testBit StatusBit.SWITCH_ON_DISABLED then
    ST_NOT_READY_TO_SWITCH_ON
  else if status_word.testBit StatusBit.QUICK_STOP then
    if status_word.testBit StatusBit.SWITCHED_ON = false then
      ST_READY_TO_SWITCH_ON
    else if status_word.testBit StatusBit.OPERATION_ENABLED = false then
      ST_SWITCHED_ON
    else
      ST_OPERATION_ENABLED
  else if status_word.testBit StatusBit.FAULT = false then
    ST_QUICK_STOP_ACTIVE
  else if status_word.testBit StatusBit.OPERATION_ENABLED then
    ST_FAULT_REACTION_ACTIVE
  else
    ST_FAULT

/-- Member-function form: GetDriveState reads the stored input snapshot. -/
def GoldSoloWhistleDrive.GetDriveState (d : GoldSoloWhistleDrive) :
    GoldSoloWhistleDriveStates :=
  getDriveState d.input_pdos.status_word

/-- Decision tree written from the design description for comparison with
the implementation decode: bit 6 set gives NotReadyToSwitchOn; else bit 5
set gives ReadyToSwitchOn when bit 1 unset, SwitchedOn when bit 2 unset,
OperationEnabled otherwise; else bit 3 unset gives QuickStopActive; else
bit 2 set gives FaultReactionActive; else Fault. -/
def specStatusDecode (status_word : Nat) : GoldSoloWhistleDriveStates :=
  if status_word.testBit 6 then
    ST_NOT_READY_TO_SWITCH_ON
  else if status_word.testBit 5 then
    if status_word.testBit 1 = false then
      ST_READY_TO_SWITCH_ON
    else if status_word.testBit 2 = false then
      ST_SWITCHED_ON
    else
      ST_OPERATION_ENABLED
  else if status_word.testBit 3 = false then
    ST_QUICK_STOP_ACTIVE
  else if status_word.testBit 2 then
    ST_FAULT_REACTION_ACTIVE
  else
    ST_FAULT

theorem mem_allDriveStates (s : GoldSoloWhistleDriveStates) :
    s ∈ allDriveStates := by
  cases s <;> simp [allDriveStates]

/-- Claim C1: for every status word stored in the input snapshot,
GetDriveState returns the state given by the fixed priority decision tree
(bit 6 gives NotReadyToSwitchOn; else bit 5 branches on bits 1 and 2 into
ReadyToSwitchOn, SwitchedOn, OperationEnabled; else bit 3 unset gives
QuickStopActive; else bit 2 picks FaultReactionActive over Fault), and the
result is always one of the nine drive states. -/
theorem c1_get_drive_state_decode (d : GoldSoloWhistleDrive) :
    d.GetDriveState = specStatusDecode d.input_pdos.status_word ∧
    d.GetDriveState ∈ allDriveStates :=
  ⟨rfl, mem_allDriveStates _⟩

/-- Narrowing cast to int16, for static_cast in the OperationEnabled state
action (two-complement wrap of the low 16 bits). -/
def toInt16 (v : Int) : Int := (v + 32768) % 65536 - 32768

/-- State action ST_SWITCH_ON_DISABLED (STATE_DEFINE SwitchOnDisabled): the
engine sets the current state, the action records prev_state. -/
def GoldSoloWhistleDrive.stateSwitchOnDisabled (d : GoldSoloWhistleDrive) :
    GoldSoloWhistleDrive :=
  { d with current_state := ST_SWITCH_ON_DISABLED,
           prev_state := ST_SWITCH_ON_DISABLED }

/-- State action ST_NOT_READY_TO_SWITCH_ON (STATE_DEFINE
NotReadyToSwitchOn): records prev_state, then fires
InternalEvent(ST_SWITCH_ON_DISABLED), imitating the physical power-up
auto-advance. -/
def GoldSoloWhistleDrive.stateNotReadyToSwitchOn (d : GoldSoloWhistleDrive) :
    GoldSoloWhistleDrive :=
  GoldSoloWhistleDrive.stateSwitchOnDisabled
    { d with current_state := ST_NOT_READY_TO_SWITCH_ON,
             prev_state := ST_NOT_READY_TO_SWITCH_ON }

/-- State action ST_START (STATE_DEFINE Start): records prev_state, then
fires InternalEvent(ST_NOT_READY_TO_SWITCH_ON). -/
def GoldSoloWhistleDrive.stateStart (d : GoldSoloWhistleDrive) :
    GoldSoloWhistleDrive :=
  GoldSoloWhistleDrive.stateNotReadyToSwitchOn
    { d with current_state := ST_START, prev_state := ST_START }

/-- State action ST_READY_TO_SWITCH_ON. -/
def GoldSoloWhistleDrive.stateReadyToSwitchOn (d : GoldSoloWhistleDrive) :
    GoldSoloWhistleDrive :=
  { d with current_state := ST_READY_TO_SWITCH_ON,
           prev_state := ST_READY_TO_SWITCH_ON }

/-- State action ST_SWITCHED_ON. -/
def GoldSoloWhistleDrive.stateSwitchedOn (d : GoldSoloWhistleDrive) :
    GoldSoloWhistleDrive :=
  { d with current_state := ST_SWITCHED_ON, prev_state := ST_SWITCHED_ON }

/-- State action ST_OPERATION_ENABLED (STATE_DEFINE OperationEnabled,
GoldSoloWhistleDriveData): sets the output operation mode and the one
target selected by the mode, then records prev_state. -/
def GoldSoloWhistleDrive.stateOperationEnabled (d : GoldSoloWhistleDrive)
    (data : GoldSoloWhistleDriveData) : GoldSoloWhistleDrive :=
  let out0 := { d.output_pdos with op_mode := data.op_mode }
  let out1 :=
    if data.op_mode = CYCLIC_POSITION then
      { out0 with target_position := data.value }
    else if data.op_mode = CYCLIC_VELOCITY then
      { out0 with target_velocity := data.value }
    else if data.op_mode = CYCLIC_TORQUE then
      { out0 with target_torque := toInt16 data.value }
    else
      out0
  { d with output_pdos := out1,
           current_state := ST_OPERATION_ENABLED,
           prev_state := ST_OPERATION_ENABLED }

/-- State action ST_QUICK_STOP_ACTIVE. -/
def GoldSoloWhistleDrive.stateQuickStopActive (d : GoldSoloWhistleDrive) :
    GoldSoloWhistleDrive :=
  { d with current_state := ST_QUICK_STOP_ACTIVE,
           prev_state := ST_QUICK_STOP_ACTIVE }

/-- State action ST_FAULT_REACTION_ACTIVE. -/
def GoldSoloWhistleDrive.stateFaultReactionActive (d : GoldSoloWhistleDrive) :
    GoldSoloWhistleDrive :=
  { d with current_state := ST_FAULT_REACTION_ACTIVE,
           prev_state := ST_FAULT_REACTION_ACTIVE }

/-- State action ST_FAULT. -/
def GoldSoloWhistleDrive.stateFault (d : GoldSoloWhistleDrive) :
    GoldSoloWhistleDrive :=
  { d with current_state := ST_FAULT, prev_state := ST_FAULT }

/-- InternalEvent dispatch with NoEventData, as fired by ReadInputs for a
decoded state other than ST_OPERATION_ENABLED. Entering
ST_OPERATION_ENABLED always carries event data in the source (through the
SetChange transition map), so that arm is never taken here; it is mapped to
the identity. -/
def GoldSoloWhistleDrive.internalEventNoData (d : GoldSoloWhistleDrive)
    (s : GoldSoloWhistleDriveStates) : GoldSoloWhistleDrive :=
  match s with
  | ST_START => d.stateStart
  | ST_NOT_READY_TO_SWITCH_ON => d.stateNotReadyToSwitchOn
  | ST_SWITCH_ON_DISABLED => d.stateSwitchOnDisabled
  | ST_READY_TO_SWITCH_ON => d.stateReadyToSwitchOn
  | ST_SWITCHED_ON => d.stateSwitchedOn
  | ST_OPERATION_ENABLED => d
  | ST_QUICK_STOP_ACTIVE => d.stateQuickStopActive
  | ST_FAULT_REACTION_ACTIVE => d.stateFaultReactionActive
  | ST_FAULT => d.stateFault

/-- SetChange transition map (goldsolowhistledrive.cpp lines 345-360): the
event reaches the OperationEnabled action only from ST_OPERATION_ENABLED;
from ST_START and ST_NOT_READY_TO_SWITCH_ON it is CANNOT_HAPPEN (the
returned flag is true and the library assertion fires); from every other
state it is EVENT_IGNORED. -/
def GoldSoloWhistleDrive.SetChange (d : GoldSoloWhistleDrive)
    (data : GoldSoloWhistleDriveData) : Bool × GoldSoloWhistleDrive :=
  match d.current_state with
  | ST_START => (true, d)
  | ST_NOT_READY_TO_SWITCH_ON => (true, d)
  | ST_OPERATION_ENABLED => (false, d.stateOperationEnabled data)
  | _ => (false, d)

/-- ChangePosition external event (goldsolowhistledrive.cpp lines
249-256): builds data (CYCLIC_POSITION, target_position) and delegates to
SetChange. -/
def GoldSoloWhistleDrive.ChangePosition (d : GoldSoloWhistleDrive)
    (target_position : Int) : Bool × GoldSoloWhistleDrive :=
  d.SetChange ⟨CYCLIC_POSITION, target_position⟩

/-- ChangeOpMode external event (goldsolowhistledrive.cpp lines 291-316):
pairs the requested mode with the matching live actual value (0 for an
unrecognized mode) and delegates to SetChange. -/
def GoldSoloWhistleDrive.ChangeOpMode (d : GoldSoloWhistleDrive)
    (target_op_mode : Int) : Bool × GoldSoloWhistleDrive :=
  let value : Int :=
    if target_op_mode = CYCLIC_POSITION then d.input_pdos.pos_actual_value
    else if target_op_mode = CYCLIC_VELOCITY then d.input_pdos.vel_actual_value
    else if target_op_mode = CYCLIC_TORQUE then d.input_pdos.torque_actual_value
    else 0
  d.SetChange ⟨target_op_mode, value⟩

/-- Shutdown external event (goldsolowhistledrive.cpp lines 180-187):
clear switch-on, set enable-voltage, set quick-stop, clear fault on the
staged control word. The body consults no state. -/
def GoldSoloWhistleDrive.Shutdown (d : GoldSoloWhistleDrive) :
    GoldSoloWhistleDrive :=
  let w1 := clearBit16 d.output_pdos.control_word ControlBit.SWITCH_ON
  let w2 := setBit16 w1 ControlBit.ENABLE_VOLTAGE
  let w3 := setBit16 w2 ControlBit.QUICK_STOP
  let w4 := clearBit16 w3 ControlBit.FAULT
  { d with output_pdos := { d.output_pdos with control_word := w4 } }

/-- ReadInputs (goldsolowhistledrive.cpp lines 135-158): refresh the input
snapshot from the bus values, recompute drive_state with the decode, and if
it differs from the machine current state fire the forced transition:
ChangeOpMode(display mode) when the decoded state is ST_OPERATION_ENABLED,
InternalEvent(decoded) otherwise. The flag is the CANNOT_HAPPEN assertion
of the ChangeOpMode path. -/
def GoldSoloWhistleDrive.ReadInputs (d : GoldSoloWhistleDrive)
    (bus : InputPdos) : Bool × GoldSoloWhistleDrive :=
  let ds := getDriveState bus.status_word
  let d1 := { d with input_pdos := bus, drive_state := ds }
  if ds ≠ d1.current_state then
    if ds = ST_OPERATION_ENABLED then
      d1.ChangeOpMode bus.display_op_mode
    else
      (false, d1.internalEventNoData ds)
  else
    (false, d1)

/-- Bus-facing output register buffer (the five output entries of the
cyclic domain written through the EC_WRITE macros). -/
structure DomainOut where
  control_word : Nat
  op_mode : Int
  target_torque : Int
  target_position : Int
  target_velocity : Int
  deriving DecidableEq, Repr

/-- WriteOutputs (goldsolowhistledrive.cpp lines 160-174): always store the
control word and the operation mode; store the three targets only when
drive_state is ST_OPERATION_ENABLED or ST_SWITCHED_ON. The stored fields
already have the declared register widths in the source (16-bit bitset,
int8, int32, int16), so the EC_WRITE stores are exact. -/
def GoldSoloWhistleDrive.WriteOutputs (d : GoldSoloWhistleDrive)
    (buf : DomainOut) : DomainOut :=
  let buf1 := { buf with control_word := d.output_pdos.control_word,
                         op_mode := d.output_pdos.op_mode }
  if d.drive_state = ST_OPERATION_ENABLED ∨ d.drive_state = ST_SWITCHED_ON
  then
    { buf1 with target_position := d.output_pdos.target_position,
                target_velocity := d.output_pdos.target_velocity,
                target_torque := d.output_pdos.target_torque }
  else
    buf1

/-- Sample zeroed input snapshot used by concrete instances. -/
def sampleInput : InputPdos := ⟨0, 0, 0, 0, 0, 0, 0⟩

/-- Sample zeroed output snapshot used by concrete instances. -/
def sampleOutput : OutputPdos := ⟨0, 0, 0, 0, 0⟩

/-- Claim C4: for every modeled state other than OperationEnabled,
ChangePosition(x) leaves the whole output snapshot unchanged (in
particular it stages no control-word change of its own); in
OperationEnabled it sets the output operation mode to CYCLIC_POSITION and
the target position to exactly x, leaving the remaining output fields
unchanged. -/
theorem c4_change_position (x : Int) (d : GoldSoloWhistleDrive) :
    (d.current_state ≠ ST_OPERATION_ENABLED →
      (d.ChangePosition x).2.output_pdos = d.output_pdos) ∧
    (d.current_state = ST_OPERATION_ENABLED →
      (d.ChangePosition x).2.output_pdos =
        { d.output_pdos with op_mode := CYCLIC_POSITION,
                             target_position := x }) := by
  obtain ⟨inp, out, ds, cs, ps⟩ := d
  cases cs <;>
    simp [GoldSoloWhistleDrive.ChangePosition, GoldSoloWhistleDrive.SetChange,
          GoldSoloWhistleDrive.stateOperationEnabled,
          CYCLIC_POSITION, CYCLIC_VELOCITY, CYCLIC_TORQUE]

/-- Drive sitting in OperationEnabled, for the C4 witness. -/
def c4DriveOE : GoldSoloWhistleDrive :=
  ⟨sampleInput, sampleOutput, ST_OPERATION_ENABLED, ST_OPERATION_ENABLED,
   ST_OPERATION_ENABLED⟩

/-- Drive sitting in Fault, for the C4 witness. -/
def c4DriveFault : GoldSoloWhistleDrive :=
  ⟨sampleInput, sampleOutput, ST_FAULT, ST_FAULT, ST_FAULT⟩

theorem c4_change_position_witness :
    (c4DriveFault.ChangePosition 5).2.output_pdos = c4DriveFault.output_pdos ∧
    (c4DriveOE.ChangePosition 5).2.output_pdos =
      { c4DriveOE.output_pdos with op_mode := CYCLIC_POSITION,
                                   target_position := 5 } :=
  ⟨(c4_change_position 5 c4DriveFault).1 (by decide),
   (c4_change_position 5 c4DriveOE).2 (by decide)⟩

/-- Drive sitting in Fault with a zero staged control word, exhibiting that
Shutdown stages control-word changes from a state outside the set the
design table lists as legal. -/
def c5Drive : GoldSoloWhistleDrive :=
  ⟨sampleInput, sampleOutput, ST_FAULT, ST_FAULT, ST_FAULT⟩

theorem testBit_pow_lit (n i : Nat) :
    Nat.testBit (2 ^ n) i = decide (i = n) := by
  by_cases h : i = n
  · subst h; simp [Nat.testBit_two_pow_self]
  · rw [Nat.testBit_two_pow_of_ne (fun hh => h hh.symm)]
    simp [h]

/-- Per-bit characterization of the control word staged by Shutdown:
bit 0 cleared, bit 1 set, bit 2 set, bit 7 cleared, every other bit kept. -/
theorem shutdown_control_word_testBit (d : GoldSoloWhistleDrive) (i : Nat) :
    (d.Shutdown).output_pdos.control_word.testBit i =
      if i = ControlBit.FAULT then false
      else if i = ControlBit.QUICK_STOP then true
      else if i = ControlBit.ENABLE_VOLTAGE then true
      else if i = ControlBit.SWITCH_ON then false
      else d.output_pdos.control_word.testBit i := by
  simp only [GoldSoloWhistleDrive.Shutdown, setBit16, clearBit16,
    ControlBit.FAULT, ControlBit.QUICK_STOP, ControlBit.ENABLE_VOLTAGE,
    ControlBit.SWITCH_ON, Nat.testBit_lor, Nat.testBit_ldiff,
    testBit_pow_lit]
  by_cases h7 : i = 7
  · subst h7; simp
  by_cases h2 : i = 2
  · subst h2; simp
  by_cases h1 : i = 1
  · subst h1; simp
  by_cases h0 : i = 0
  · subst h0; simp
  simp [h7, h2, h1, h0]

/-- Claim C5 counterexample: in state Fault, outside the listed legal set
{SwitchOnDisabled, SwitchedOn, OperationEnabled}, the Shutdown event still
changes the staged control register, so the event is not ignored there. -/
theorem c5_shutdown_counterexample :
    c5Drive.current_state ≠ ST_SWITCH_ON_DISABLED ∧
    c5Drive.current_state ≠ ST_SWITCHED_ON ∧
    c5Drive.current_state ≠ ST_OPERATION_ENABLED ∧
    (c5Drive.Shutdown).output_pdos.control_word ≠
      c5Drive.output_pdos.control_word := by
  refine ⟨by decide, by decide, by decide, fun h => ?_⟩
  have h1 := shutdown_control_word_testBit c5Drive 1
  rw [h] at h1
  revert h1
  decide

/-- Claim C5 (amended): Shutdown stages exactly the control-word changes
clear switch-on (bit 0), set enable-voltage (bit 1), set quick-stop
(bit 2), clear fault (bit 7) in every state (the implementation performs
no legality check, so the event is not ignored outside SwitchOnDisabled,
SwitchedOn and OperationEnabled); all other bits and output fields are
untouched, and the event itself never changes the modeled state before the
next decode. -/
theorem c5_shutdown_amended (d : GoldSoloWhistleDrive) (i : Nat) :
    ((d.Shutdown).output_pdos.control_word.testBit i =
      if i = ControlBit.FAULT then false
      else if i = ControlBit.QUICK_STOP then true
      else if i = ControlBit.ENABLE_VOLTAGE then true
      else if i = ControlBit.SWITCH_ON then false
      else d.output_pdos.control_word.testBit i) ∧
    (d.Shutdown).output_pdos.op_mode = d.output_pdos.op_mode ∧
    (d.Shutdown).output_pdos.target_torque = d.output_pdos.target_torque ∧
    (d.Shutdown).output_pdos.target_position =
      d.output_pdos.target_position ∧
    (d.Shutdown).output_pdos.target_velocity =
      d.output_pdos.target_velocity ∧
    (d.Shutdown).input_pdos = d.input_pdos ∧
    (d.Shutdown).current_state = d.current_state ∧
    (d.Shutdown).drive_state = d.drive_state :=
  ⟨shutdown_control_word_testBit d i, rfl, rfl, rfl, rfl, rfl, rfl, rfl⟩

/-- Claim C6: WriteOutputs always stores the staged control word and
operation mode into the bus-facing buffer; it stores the three targets
exactly when the modeled state is SwitchedOn or OperationEnabled, and in
every other state the target registers of the buffer keep their previous
content. -/
theorem c6_write_outputs (d : GoldSoloWhistleDrive) (buf : DomainOut) :
    (d.WriteOutputs buf).control_word = d.output_pdos.control_word ∧
    (d.WriteOutputs buf).op_mode = d.output_pdos.op_mode ∧
    ((d.drive_state = ST_SWITCHED_ON ∨ d.drive_state = ST_OPERATION_ENABLED) →
      (d.WriteOutputs buf).target_position = d.output_pdos.target_position ∧
      (d.WriteOutputs buf).target_velocity = d.output_pdos.target_velocity ∧
      (d.WriteOutputs buf).target_torque = d.output_pdos.target_torque) ∧
    (d.drive_state ≠ ST_SWITCHED_ON → d.drive_state ≠ ST_OPERATION_ENABLED →
      (d.WriteOutputs buf).target_position = buf.target_position ∧
      (d.WriteOutputs buf).target_velocity = buf.target_velocity ∧
      (d.WriteOutputs buf).target_torque = buf.target_torque) := by
  obtain ⟨inp, out, ds, cs, ps⟩ := d
  cases ds <;> simp [GoldSoloWhistleDrive.WriteOutputs]

/-- Buffer with sentinel values, for the C6 witness. -/
def c6Buf : DomainOut := ⟨11, 12, 13, 14, 15⟩

/-- Drive in QuickStopActive, for the C6 witness frame part. -/
def c6Drive : GoldSoloWhistleDrive :=
  ⟨sampleInput, ⟨1, 2, 3, 4, 5⟩, ST_QUICK_STOP_ACTIVE, ST_QUICK_STOP_ACTIVE,
   ST_QUICK_STOP_ACTIVE⟩

theorem c6_write_outputs_witness :
    (c6Drive.WriteOutputs c6Buf).target_position = c6Buf.target_position ∧
    (c6Drive.WriteOutputs c6Buf).target_velocity = c6Buf.target_velocity ∧
    (c6Drive.WriteOutputs c6Buf).target_torque = c6Buf.target_torque :=
  (c6_write_outputs c6Drive c6Buf).2.2.2 (by decide) (by decide)

/-- Enumeration of the possible results of the status decode: only seven
of the nine states ever come out of GetDriveState. -/
theorem getDriveState_cases (sw : Nat) :
    getDriveState sw = ST_NOT_READY_TO_SWITCH_ON ∨
    getDriveState sw = ST_READY_TO_SWITCH_ON ∨
    getDriveState sw = ST_SWITCHED_ON ∨
    getDriveState sw = ST_OPERATION_ENABLED ∨
    getDriveState sw = ST_QUICK_STOP_ACTIVE ∨
    getDriveState sw = ST_FAULT_REACTION_ACTIVE ∨
    getDriveState sw = ST_FAULT := by
  unfold getDriveState
  repeat' split
  all_goals simp

/-- Claim C10: the decode never yields Start or SwitchOnDisabled (a status
word with the switch-on-disabled bit set decodes to NotReadyToSwitchOn),
so the forced transition fired by ReadInputs never targets them; after a
ReadInputs on a drive not sitting in Start, the machine state is never
Start, and it is SwitchOnDisabled only when either the decode produced
NotReadyToSwitchOn (whose state action is the power-up auto-advance into
SwitchOnDisabled) or the machine was already there and the staged event
was ignored. -/
theorem c10_decode_never_start_or_disabled :
    (∀ sw : Nat,
      getDriveState sw ≠ ST_START ∧
      getDriveState sw ≠ ST_SWITCH_ON_DISABLED) ∧
    (∀ (d : GoldSoloWhistleDrive) (bus : InputPdos),
      d.current_state ≠ ST_START →
      (d.ReadInputs bus).2.current_state ≠ ST_START ∧
      ((d.ReadInputs bus).2.current_state = ST_SWITCH_ON_DISABLED →
        getDriveState bus.status_word = ST_NOT_READY_TO_SWITCH_ON ∨
        d.current_state = ST_SWITCH_ON_DISABLED)) := by
  constructor
  · intro sw
    rcases getDriveState_cases sw with h | h | h | h | h | h | h <;>
      simp [h]
  · intro d bus hs
    obtain ⟨inp, out, ds, cs, ps⟩ := d
    simp only [GoldSoloWhistleDrive.ReadInputs, GoldSoloWhistleDrive.ChangeOpMode,
      GoldSoloWhistleDrive.SetChange, GoldSoloWhistleDrive.internalEventNoData]
    rcases getDriveState_cases bus.status_word with h | h | h | h | h | h | h <;>
      rw [h] <;> cases cs <;>
        simp_all [GoldSoloWhistleDrive.stateNotReadyToSwitchOn,
          GoldSoloWhistleDrive.stateSwitchOnDisabled,
          GoldSoloWhistleDrive.stateReadyToSwitchOn,
          GoldSoloWhistleDrive.stateSwitchedOn,
          GoldSoloWhistleDrive.stateOperationEnabled,
          GoldSoloWhistleDrive.stateQuickStopActive,
          GoldSoloWhistleDrive.stateFaultReactionActive,
          GoldSoloWhistleDrive.stateFault]

/-- Drive in ReadyToSwitchOn, for the C10 witness. -/
def c10Drive : GoldSoloWhistleDrive :=
  ⟨sampleInput, sampleOutput, ST_READY_TO_SWITCH_ON, ST_READY_TO_SWITCH_ON,
   ST_READY_TO_SWITCH_ON⟩

/-- Status word with only the switch-on-disabled bit set (value 64). -/
def c10Bus : InputPdos := ⟨64, 0, 0, 0, 0, 0, 0⟩

theorem c10_witness :
    (getDriveState 64 ≠ ST_START ∧
      getDriveState 64 ≠ ST_SWITCH_ON_DISABLED) ∧
    ((c10Drive.ReadInputs c10Bus).2.current_state ≠ ST_START ∧
      ((c10Drive.ReadInputs c10Bus).2.current_state = ST_SWITCH_ON_DISABLED →
        getDriveState c10Bus.status_word = ST_NOT_READY_TO_SWITCH_ON ∨
        c10Drive.current_state = ST_SWITCH_ON_DISABLED)) :=
  ⟨c10_decode_never_start_or_disabled.1 64,
   c10_decode_never_start_or_disabled.2 c10Drive c10Bus (by decide)⟩

end grabec

namespace grabrt

/-- Error code returned by Thread::GetReady when no loop function is set
(EFAULT on Linux). -/
def EFAULT : Nat := 14

/-- Mutable state of a Thread object (threads.cpp). Function and argument
pointers are modelled as optional abstract addresses, none standing for
NULL. -/
structure Thread where
  init_fun : Option Nat
  init_fun_args : Option Nat
  loop_fun : Option Nat
  loop_fun_args : Option Nat
  end_fun : Option Nat
  end_fun_args : Option Nat
  emergency_exit_fun : Option Nat
  emergency_exit_fun_args : Option Nat
  run : Bool
  active : Bool
  stop_cmd_recv : Bool
  rt_deadline_missed : Bool
  cycle_time_nsec : Nat
  deriving DecidableEq, Repr

/-- Modelled from the spec: the bodies of the IsActive and IsRunning
queries live in threads.h, which is not among the sources. Per the
RuntimeState description and the uses in threads.cpp and the unit test
(running implies active, a paused worker is active but not running, a
stopped worker is not active), IsActive reads the active flag. -/
def Thread.IsActive (t : Thread) : Bool := t.active

/-- Modelled from the spec: see Thread.IsActive; IsRunning additionally
requires the shared run flag. -/
def Thread.IsRunning (t : Thread) : Bool := t.active && t.run

/-- Thread::Pause (threads.cpp lines 388-393): set the shared run flag to
false under the lock. -/
def Thread.Pause (t : Thread) : Thread := { t with run := false }

/-- Thread::Unpause (threads.cpp lines 395-403), transcribed exactly as
written: when the worker is active the body assigns run_ = false, the same
assignment Pause performs. -/
def Thread.Unpause (t : Thread) : Thread :=
  if t.IsActive then { t with run := false } else t

/-- Thread::SetInitFunc (threads.cpp lines 295-304): warns when the worker
is running, then stores the pointers unconditionally. -/
def Thread.SetInitFunc (t : Thread) (f a : Option Nat) : Thread :=
  { t with init_fun := f, init_fun_args := a }

/-- Thread::SetLoopFunc (threads.cpp lines 306-321): when the worker is
running the call only warns and stores nothing; otherwise it stores the
pointers. -/
def Thread.SetLoopFunc (t : Thread) (f a : Option Nat) : Thread :=
  if t.IsRunning then t
  else { t with loop_fun := f, loop_fun_args := a }

/-- Thread::SetEndFunc (threads.cpp lines 323-333): warns when the worker
is active, then stores the pointers unconditionally (the assignments sit
after the if block). -/
def Thread.SetEndFunc (t : Thread) (f a : Option Nat) : Thread :=
  { t with end_fun := f, end_fun_args := a }

/-- Thread::SetEmergencyExitFunc (threads.cpp lines 335-345): warns when
the worker is active, then stores the pointers unconditionally. -/
def Thread.SetEmergencyExitFunc (t : Thread) (f a : Option Nat) : Thread :=
  { t with emergency_exit_fun := f, emergency_exit_fun_args := a }

/-- Thread::GetReady (threads.cpp lines 377-386): return EFAULT when no
loop function was set; otherwise record the cycle period, set the active
and run flags and return 0. -/
def Thread.GetReady (t : Thread) (cycle_time_nsec : Nat) : Nat × Thread :=
  if t.loop_fun = none then (EFAULT, t)
  else (0, { t with cycle_time_nsec := cycle_time_nsec,
                    active := true, run := true })

/-- Deadline-miss tail of Thread::TargetFun (threads.cpp lines 557-570),
the branch taken when rt_deadline_missed_ is set: the emergency function
pointer is invoked exactly when the guard passes, then run_ and active_
are cleared and the function returns. The returned flag records whether
the emergency function pointer was invoked. The source guards the call on
emergency_exit_fun_args_ptr_ (the argument pointer), not on the function
pointer. -/
def Thread.targetFunDeadlineMissExit (t : Thread) : Bool × Thread :=
  if t.emergency_exit_fun_args.isSome then
    (true, { t with run := false, active := false })
  else
    (false, { t with run := false, active := false })

/-- Active worker with a loop hook, paused; the configuration of the unit
test scenario around libgrabrt_test.cpp lines 126-130. -/
def c2Thread : Thread :=
  ⟨none, none, some 1, none, none, none, none, none,
   true, true, false, false, 1000000⟩

/-- Claim C2 (code bug): Pause does clear the shared run flag, but Unpause
on an active worker also assigns run = false instead of restoring true, so
after Pause then Unpause the worker is still not running and the loop hook
stays skipped. The repository unit test expects IsRunning to hold right
after Unpause (libgrabrt_test.cpp lines 129-130), which this state
violates. -/
theorem c2_unpause_keeps_run_false :
    c2Thread.IsActive = true ∧
    (c2Thread.Pause).run = false ∧
    ((c2Thread.Pause).Unpause).run = false ∧
    ((c2Thread.Pause).Unpause).IsRunning = false := by
  decide

/-- Worker that missed its deadline with an emergency hook set but a NULL
context-argument pointer. -/
def c3Thread : Thread :=
  ⟨none, none, some 1, none, none, none, some 2, none,
   true, true, false, true, 1000000⟩

/-- Claim C3 (code bug): on a deadline miss with the emergency hook set
together with a null context-argument pointer, the worker skips the hook —
the guard tests the argument pointer instead of the function pointer —
although it does mark itself inactive, clear the run flag and return
without requiring Stop. -/
theorem c3_emergency_hook_skipped :
    c3Thread.emergency_exit_fun.isSome = true ∧
    c3Thread.emergency_exit_fun_args = none ∧
    (c3Thread.targetFunDeadlineMissExit).1 = false ∧
    (c3Thread.targetFunDeadlineMissExit).2.active = false ∧
    (c3Thread.targetFunDeadlineMissExit).2.run = false := by
  decide

/-- Claim C8: GetReady fails with EFAULT exactly when no loop callback is
set, leaving the worker unchanged; with a loop callback set it records the
cycle period, sets the active and run flags, returns 0 and changes nothing
else. -/
theorem c8_get_ready (p : Nat) (t : Thread) :
    ((t.GetReady p).1 = EFAULT ↔ t.loop_fun = none) ∧
    (t.loop_fun = none → t.GetReady p = (EFAULT, t)) ∧
    (t.loop_fun ≠ none →
      t.GetReady p =
        (0, { t with cycle_time_nsec := p, active := true, run := true })) := by
  obtain ⟨i, ia, l, la, e, ea, m, ma, r, a, s, dm, c⟩ := t
  cases l <;> simp [Thread.GetReady, EFAULT]

/-- Idle worker without a loop hook, for the C8 witness. -/
def c8ThreadBare : Thread :=
  ⟨none, none, none, none, none, none, none, none,
   false, false, false, false, 0⟩

/-- Idle worker with a loop hook, for the C8 witness. -/
def c8ThreadReady : Thread :=
  ⟨none, none, some 1, none, none, none, none, none,
   false, false, false, false, 0⟩

theorem c8_get_ready_witness :
    (c8ThreadBare.GetReady 500).1 = EFAULT ∧
    c8ThreadReady.GetReady 500 =
      (0, { c8ThreadReady with cycle_time_nsec := 500,
                               active := true, run := true }) :=
  ⟨(c8_get_ready 500 c8ThreadBare).1.mpr (by decide),
   (c8_get_ready 500 c8ThreadReady).2.2 (by decide)⟩

/-- Active worker with stored hooks, exhibiting that the end hook setter
overwrites the stored hook even while the worker is active. -/
def c9Thread : Thread :=
  ⟨none, none, some 1, none, some 3, some 4, some 5, some 6,
   true, true, false, false, 1000000⟩

/-- Claim C9 counterexample: on an active (running) worker, SetEndFunc
still replaces the stored end hook and argument, so the call is not a
no-op as claimed. -/
theorem c9_counterexample :
    c9Thread.IsActive = true ∧
    (c9Thread.SetEndFunc (some 7) (some 8)).end_fun ≠ c9Thread.end_fun := by
  decide

/-- Claim C9 (amended): only SetLoopFunc called while the worker is
running is a no-op leaving the whole object unchanged; SetInitFunc,
SetEndFunc and SetEmergencyExitFunc emit a warning when the worker is
running or active but always overwrite the stored hook and its argument
pointer, and SetLoopFunc on a non-running worker stores the loop hook. -/
theorem c9_hook_setters (f a : Option Nat) (t : Thread) :
    (t.IsRunning = true → t.SetLoopFunc f a = t) ∧
    (t.IsRunning = false →
      (t.SetLoopFunc f a).loop_fun = f ∧
      (t.SetLoopFunc f a).loop_fun_args = a) ∧
    ((t.SetInitFunc f a).init_fun = f ∧
      (t.SetInitFunc f a).init_fun_args = a) ∧
    ((t.SetEndFunc f a).end_fun = f ∧
      (t.SetEndFunc f a).end_fun_args = a) ∧
    ((t.SetEmergencyExitFunc f a).emergency_exit_fun = f ∧
      (t.SetEmergencyExitFunc f a).emergency_exit_fun_args = a) := by
  constructor
  · intro h
    simp [Thread.SetLoopFunc, h]
  refine ⟨fun h => ?_, ⟨rfl, rfl⟩, ⟨rfl, rfl⟩, ⟨rfl, rfl⟩⟩
  simp [Thread.SetLoopFunc, h]

theorem c9_hook_setters_witness :
    (c9Thread.SetLoopFunc (some 9) none = c9Thread) ∧
    (c9Thread.SetEndFunc (some 9) none).end_fun = some 9 :=
  ⟨(c9_hook_setters (some 9) none c9Thread).1 (by decide),
   ((c9_hook_setters (some 9) none c9Thread).2.2.2.1).1⟩

/-- Nanoseconds in a second (kNanoSec2Sec in clocks.h). -/
def kNanoSec2Sec : Nat := 1000000000

/-- A struct timespec value: seconds and nanoseconds, both signed. -/
structure timespec where
  tv_sec : Int
  tv_nsec : Int
  deriving DecidableEq, Repr

/-- ThreadClock state: the cycle period in nanoseconds (uint64) and the
absolute reference time. -/
structure ThreadClock where
  period_nsec : Nat
  time : timespec
  deriving DecidableEq, Repr

/-- Total nanosecond count of a timespec. -/
def timespec.totalNanos (ts : timespec) : Int :=
  ts.tv_sec * (kNanoSec2Sec : Int) + ts.tv_nsec

/-- A timespec with its nanosecond component in [0, 10^9). -/
def timespec.normalized (ts : timespec) : Prop :=
  0 ≤ ts.tv_nsec ∧ ts.tv_nsec < (kNanoSec2Sec : Int)

instance decNormalized (ts : timespec) : Decidable ts.normalized :=
  inferInstanceAs (Decidable (0 ≤ ts.tv_nsec ∧ ts.tv_nsec < (kNanoSec2Sec : Int)))

/-- ThreadClock::Next (clocks.cpp lines 41-45): tv_nsec is cast to uint64
(a reduction mod 2^64, written explicitly because the sum of the cast and
the uint64 period wraps mod 2^64), the quotient by 10^9 is added to
tv_sec and the remainder becomes the new tv_nsec. -/
def ThreadClock.Next (c : ThreadClock) : ThreadClock :=
  let sum : Nat :=
    ((c.time.tv_nsec % (2 ^ 64 : Int)).toNat + c.period_nsec) % 2 ^ 64
  { c with time := ⟨c.time.tv_sec + ((sum / kNanoSec2Sec : Nat) : Int),
                    ((sum % kNanoSec2Sec : Nat) : Int)⟩ }

/-- One Next call on a normalized clock whose period cannot wrap the
uint64 nanosecond sum advances the reference time by exactly the period
and keeps it normalized; the period member is untouched. -/
theorem next_step (c : ThreadClock) (h : c.time.normalized)
    (hP : c.period_nsec + kNanoSec2Sec ≤ 2 ^ 64) :
    (c.Next).time.normalized ∧
    (c.Next).time.totalNanos = c.time.totalNanos + (c.period_nsec : Int) ∧
    (c.Next).period_nsec = c.period_nsec := by
  obtain ⟨hlo, hhi⟩ := h
  unfold timespec.normalized at *
  unfold ThreadClock.Next timespec.totalNanos
  unfold kNanoSec2Sec at *
  refine ⟨⟨?_, ?_⟩, ?_, rfl⟩ <;> simp only [] <;> omega

/-- Iterating Next n times on a normalized clock advances the reference
time by exactly n periods, keeping it normalized and the period fixed. -/
theorem next_iterate (c : ThreadClock) (h : c.time.normalized)
    (hP : c.period_nsec + kNanoSec2Sec ≤ 2 ^ 64) (n : Nat) :
    (ThreadClock.Next^[n] c).time.normalized ∧
    (ThreadClock.Next^[n] c).time.totalNanos =
      c.time.totalNanos + (n : Int) * (c.period_nsec : Int) ∧
    (ThreadClock.Next^[n] c).period_nsec = c.period_nsec := by
  induction n with
  | zero => simpa using h
  | succ k ih =>
    obtain ⟨ih1, ih2, ih3⟩ := ih
    rw [Function.iterate_succ_apply']
    have hstep := next_step (ThreadClock.Next^[k] c) ih1 (by rw [ih3]; exact hP)
    refine ⟨hstep.1, ?_, by rw [hstep.2.2, ih3]⟩
    rw [hstep.2.1, ih2, ih3]
    push_cast
    ring

/-- Clock whose uint64 nanosecond sum wraps: period 2^64 - 1 with one
nanosecond on the reference time. -/
def c7Clock : ThreadClock := ⟨2 ^ 64 - 1, ⟨0, 1⟩⟩

/-- Claim C7 counterexample: for the normalized reference time (0 s, 1 ns)
and period 2^64 - 1 ns, the uint64 nanosecond sum wraps to 0, so Next
leaves the reference time at 0 total nanoseconds instead of advancing it
by the period. -/
theorem c7_counterexample :
    c7Clock.time.normalized ∧
    (c7Clock.Next).time.totalNanos ≠
      c7Clock.time.totalNanos + (c7Clock.period_nsec : Int) := by
  constructor
  · decide
  · decide

/-- Claim C7 (amended): for every clock state with normalized nanosecond
component and every period small enough that the uint64 nanosecond sum
cannot wrap (period + 10^9 at most 2^64), one Next call yields a
normalized time equal to the old reference time plus exactly the period,
with exact integer carry; hence for any N of at least 1, the N successive
absolute wake instants produced by repeated WaitUntilNext calls (each of
which advances the reference time with exactly one Next) are spaced
exactly one period apart. -/
theorem c7_next_exact_period (c : ThreadClock) (N : Nat)
    (h : c.time.normalized)
    (hP : c.period_nsec + kNanoSec2Sec ≤ 2 ^ 64) (_hN : 1 ≤ N) :
    ((c.Next).time.normalized ∧
      (c.Next).time.totalNanos = c.time.totalNanos + (c.period_nsec : Int)) ∧
    (∀ n, n < N →
      (ThreadClock.Next^[n + 1] c).time.totalNanos =
        (ThreadClock.Next^[n] c).time.totalNanos + (c.period_nsec : Int)) := by
  have hstep := next_step c h hP
  refine ⟨⟨hstep.1, hstep.2.1⟩, fun n _ => ?_⟩
  have hk := next_iterate c h hP n
  have hk1 := next_iterate c h hP (n + 1)
  rw [hk.2.1, hk1.2.1]
  push_cast
  ring

/-- Normalized clock with a 250 ms period, for the C7 witness. -/
def c7ClockW : ThreadClock := ⟨250000000, ⟨10, 900000000⟩⟩

theorem c7_next_exact_period_witness :
    (c7ClockW.Next).time.normalized ∧
    (c7ClockW.Next).time.totalNanos =
      c7ClockW.time.totalNanos + (c7ClockW.period_nsec : Int) :=
  (c7_next_exact_period c7ClockW 1 (by decide) (by decide) (by decide)).1

end grabrt
